import Mathlib

/-!
Verification of the `ai-ds-coder` CLI (`ai-ds-coder-cli-v1.py`).

The program is embedded shallowly: external effects (the file system, the
chat-model endpoint, the Python execution of model output) are oracles
carried in an `Env`; each embedded function returns the `Trace` of its
observable effects (printed lines, Gateway calls, Sandbox runs) together
with an `Except` value, where `Except.error` models a Python exception
propagating out of the function and `Except.ok` a normal return.
-/

namespace DSCoder

/-- A loaded tabular dataset: its column names and its number of data rows
(the shape reported by `load_data`). -/
structure DataFrame where
  columns : List String
  nrows : Nat
deriving Repr, DecidableEq

/-- The program's external collaborators, as oracles: the file system
(`none` models a missing or unreadable file), the chat-model endpoint
(`Except.error` models a Gateway failure raised by `llm.invoke`), and the
outcome of running a text as Python code inside the REPL
(`Except.error m` models the run raising an error with message `m`). -/
structure Env where
  fs : String → Option String
  llm : String → Except String String
  runCode : String → Except String String

/-- Observable effects of one dispatch: lines printed to the user, queries
sent to the Model Gateway (`chat_with_llm` invocations), and texts handed
to the Sandbox (`get_python_repl` invocations). -/
structure Trace where
  output : List String
  gatewayCalls : List String
  sandboxRuns : List String
deriving Repr, DecidableEq

/-- The empty trace. -/
def Trace.nil : Trace := ⟨[], [], []⟩

/-- Sequencing of effects. -/
def Trace.append (a b : Trace) : Trace :=
  ⟨a.output ++ b.output, a.gatewayCalls ++ b.gatewayCalls, a.sandboxRuns ++ b.sandboxRuns⟩

@[simp] theorem Trace.nil_output : Trace.nil.output = [] := rfl

@[simp] theorem Trace.nil_gatewayCalls : Trace.nil.gatewayCalls = [] := rfl

@[simp] theorem Trace.nil_sandboxRuns : Trace.nil.sandboxRuns = [] := rfl

@[simp] theorem Trace.append_output (a b : Trace) :
    (Trace.append a b).output = a.output ++ b.output := rfl

@[simp] theorem Trace.append_gatewayCalls (a b : Trace) :
    (Trace.append a b).gatewayCalls = a.gatewayCalls ++ b.gatewayCalls := rfl

@[simp] theorem Trace.append_sandboxRuns (a b : Trace) :
    (Trace.append a b).sandboxRuns = a.sandboxRuns ++ b.sandboxRuns := rfl

/-- Splitting a character list at every occurrence of a separator, the
list-level counterpart of Python `str.split(sep)` for a one-character
separator (used to model `splitext`, `read_csv` line and field splitting). -/
def splitChar (sep : Char) : List Char → List (List Char)
  | [] => [[]]
  | c :: cs =>
    let r := splitChar sep cs
    if c = sep then [] :: r
    else
      match r with
      | [] => [[c]]
      | g :: gs => (c :: g) :: gs

/-- Python `str.lower()` (ASCII case folding, which is all the program
compares). -/
def lowerStr (s : String) : String := String.mk (s.toList.map Char.toLower)

/-- `os.path.splitext(path)[1]`: the extension of the final path component,
i.e. the substring from the last dot on, where leading dots of the base
name do not start an extension. -/
def splitextExt (path : String) : String :=
  let base := (splitChar ('/') path.toList).getLastD []
  let lead := (base.takeWhile (fun c => c = '.')).length
  let rest := base.drop lead
  let tl := rest.reverse.takeWhile (fun c => c ≠ '.')
  if tl.length = rest.length then ("") else String.mk ('.' :: tl.reverse)

/-- Modelled from the spec: `pandas.read_csv` (external collaborator, not in
the repository). Per the spec the Loader, given a file path, returns a
tabular in-memory table or a load failure: a missing or unreadable file
raises, and a parsed CSV has the header line's fields as columns and one
row per data line (blank lines skipped). -/
def read_csv (fs : String → Option String) (path : String) : Except String DataFrame :=
  match fs path with
  | none => Except.error ("FileNotFoundError: " ++ path)
  | some content =>
    match (splitChar ('\n') content.toList).filter (fun l => l ≠ []) with
    | [] => Except.error ("EmptyDataError: No columns to parse from file")
    | header :: dataLines =>
      Except.ok ⟨(splitChar (',') header).map (fun g => String.mk g), dataLines.length⟩

/-- Modelled from the spec: the textual representation of the dataset that
the f-strings interpolate as `{data}` (the spec: the dataset is serialized
into the instruction as a textual representation). -/
def reprDF (df : DataFrame) : String :=
  String.intercalate (",") df.columns ++ " :: " ++ toString df.nrows ++ " rows"

/-- Python `str` applied to an optional value: `None` prints as the literal
text `None`. -/
def pyStr : Option String → String
  | none => "None"
  | some s => s

/-- `load_data(file_path)`: prints the loading banner, loads a `.csv` file
(extension compared after lowercasing) via `read_csv` and reports its
shape, or prints the unsupported-file diagnostic and returns `None`. -/
def load_data (fs : String → Option String) (file_path : String) :
    Trace × Except String (Option DataFrame) :=
  let t0 : Trace := ⟨["Loading data from " ++ file_path ++ "..."], [], []⟩
  let ext := lowerStr (splitextExt file_path)
  if ext = ".csv" then
    match read_csv fs file_path with
    | Except.error e => (t0, Except.error e)
    | Except.ok df =>
      (Trace.append t0
        ⟨["Loaded " ++ toString df.nrows ++ " rows and " ++
          toString df.columns.length ++ " columns."], [], []⟩,
       Except.ok (some df))
  else
    (Trace.append t0 ⟨["Unsupported file type: " ++ ext], [], []⟩, Except.ok none)

/-- `chat_with_llm(query)`: sends the two-message conversation to the model
and prints and returns its content; an endpoint failure raises out. The
Gateway call is recorded in the trace in either case. -/
def chat_with_llm (env : Env) (query : String) : Trace × Except String String :=
  match env.llm query with
  | Except.error e => (⟨[], [query], []⟩, Except.error e)
  | Except.ok resp => (⟨["LLM Response:\n" ++ resp], [query], []⟩, Except.ok resp)

/-- Modelled from the spec: `PythonREPL.run` from langchain (external, not
in the repository). Per the spec, it executes the text, captures the
output, and if execution raises any error it catches it and returns the
error's message as the result string; it never raises out of `run`. -/
def pythonREPL_run (env : Env) (text : String) : String :=
  match env.runCode text with
  | Except.ok out => out
  | Except.error msg => msg

/-- `get_python_repl(ai_msg)`: runs the text through a fresh `PythonREPL`
and prints the result. -/
def get_python_repl (env : Env) (ai_msg : String) : Trace × Except String Unit :=
  (⟨[pythonREPL_run env ai_msg], [], [ai_msg]⟩, Except.ok ())

/-- `suggest_task(task)`: picks the fixed query for the two recognized task
constants and sends it to the LLM; any other value leaves `query` unbound,
so the call `chat_with_llm(query)` raises `UnboundLocalError`. -/
def suggest_task (env : Env) (task : String) : Trace × Except String Unit :=
  if task = "preprocessing" then
    let r := chat_with_llm env ("Suggest the best preprocessing steps for a CSV dataset.")
    (r.1, r.2.map (fun _ => ()))
  else if task = "hyperparameter_tuning" then
    let r := chat_with_llm env ("Suggest hyperparameter tuning steps for a llama 3.2 model.")
    (r.1, r.2.map (fun _ => ()))
  else
    (Trace.nil,
     Except.error ("UnboundLocalError: local variable \x27query\x27 referenced before assignment"))

/-- The f-string query built by `train_model_with_llm`. -/
def trainQuery (model_name : String) (df : DataFrame) (target : String) : String :=
  "Create python code to train a " ++ model_name ++ " model using the " ++ reprDF df ++
    " from dataset with the target variable \x27" ++ target ++ "\x27. Provide the code only."

/-- The body of `train_model_with_llm`'s `try` block: load the data, raise
if loading failed or the target column is absent, build the query, call
the LLM, and execute its response in the REPL. -/
def train_body (env : Env) (model_name file_path target : String) : Trace × Except String Unit :=
  match load_data env.fs file_path with
  | (t, Except.error e) => (t, Except.error e)
  | (t, Except.ok none) => (t, Except.error ("Data loading failed"))
  | (t, Except.ok (some df)) =>
    if target ∈ df.columns then
      match chat_with_llm env (trainQuery model_name df target) with
      | (t2, Except.error e) => (Trace.append t t2, Except.error e)
      | (t2, Except.ok resp) =>
        let r := get_python_repl env resp
        (Trace.append (Trace.append t t2) r.1, r.2)
    else
      (t, Except.error ("Target column \x27" ++ target ++ "\x27 not found in the dataset"))

/-- `train_model_with_llm(model_name, file_path, target)`: the `try` body
wrapped by `except Exception as e: print(f"Error during model training:
...")`, so it never raises. -/
def train_model_with_llm (env : Env) (model_name file_path target : String) :
    Trace × Except String Unit :=
  match train_body env model_name file_path target with
  | (t, Except.ok u) => (t, Except.ok u)
  | (t, Except.error e) =>
    (Trace.append t ⟨["Error during model training: " ++ e], [], []⟩, Except.ok ())

/-- The f-string query built by `generate_eda_with_llm`; an omitted
`--plot` interpolates as the text `None`. -/
def edaQuery (df : DataFrame) (plot_type : Option String) : String :=
  "Generate an EDA report for the " ++ reprDF df ++ " of dataset. Include " ++
    pyStr plot_type ++ " plots if applicable."

/-- `generate_eda_with_llm(file_path, plot_type)`: loads the data; when a
dataset came back, queries the LLM and executes its response; when the
loader returned `None`, prints the failure line. There is no `try`/`except`
here, so an exception from the loader or the Gateway propagates out. -/
def generate_eda_with_llm (env : Env) (file_path : String) (plot_type : Option String) :
    Trace × Except String Unit :=
  match load_data env.fs file_path with
  | (t, Except.error e) => (t, Except.error e)
  | (t, Except.ok (some df)) =>
    match chat_with_llm env (edaQuery df plot_type) with
    | (t2, Except.error e) => (Trace.append t t2, Except.error e)
    | (t2, Except.ok resp) =>
      let r := get_python_repl env resp
      (Trace.append (Trace.append t t2) r.1, r.2)
  | (t, Except.ok none) =>
    (Trace.append t ⟨["Failed to load data for EDA"], [], []⟩, Except.ok ())

/-- The `while` loop of `interactive_mode` over the finite stream of lines
the user will type: an exit line (case-insensitive) breaks before any
Gateway call; any other line is sent through `chat_with_llm` and the loop
continues. Exhausting the input models `input()` raising `EOFError`. -/
def interactive_loop (env : Env) : List String → Trace × Except String Unit
  | [] => (Trace.nil, Except.error ("EOFError"))
  | q :: rest =>
    if lowerStr q = "exit" then (Trace.nil, Except.ok ())
    else
      match chat_with_llm env q with
      | (t, Except.error e) => (t, Except.error e)
      | (t, Except.ok _) =>
        let r := interactive_loop env rest
        (Trace.append t r.1, r.2)

/-- The banner separator line printed by `interactive_mode`. -/
def sepLine : String := String.mk (List.replicate 71 ('='))

/-- `interactive_mode()`: prints the banner, then runs the read-dispatch
loop on the user's lines. -/
def interactive_mode (env : Env) (lines : List String) : Trace × Except String Unit :=
  let banner : Trace := ⟨[sepLine, "Starting Interactive Session with LLM", sepLine], [], []⟩
  let r := interactive_loop env lines
  (Trace.append banner r.1, r.2)

/-- The parsed command line: one constructor per subcommand of
`parse_args`, with the flags argparse makes required; `invalid` is any
unrecognized command. Interactive mode carries the lines the user will
type. -/
inductive Command where
  | interactive (lines : List String)
  | load (file : String)
  | suggest (task : String)
  | train (model file target : String)
  | eda (file : String) (plot : Option String)
  | invalid
deriving Repr, DecidableEq

/-- `main()`: dispatch on the parsed subcommand. `main` installs no
exception handler, so an `Except.error` escaping a dispatch is an uncaught
exception terminating the process. -/
def main (env : Env) : Command → Trace × Except String Unit
  | Command.interactive lines => interactive_mode env lines
  | Command.load file =>
    match load_data env.fs file with
    | (t, Except.error e) => (t, Except.error e)
    | (t, Except.ok _) => (t, Except.ok ())
  | Command.suggest task => suggest_task env task
  | Command.train m f tg => train_model_with_llm env m f tg
  | Command.eda f p => generate_eda_with_llm env f p
  | Command.invalid =>
    (⟨["Invalid command. Use --help for available commands."], [], []⟩, Except.ok ())

/-- The process exit status of a run: a Python process exits 0 on normal
return of `main` and 1 on an uncaught exception. -/
def exitStatus (r : Trace × Except String Unit) : Nat :=
  match r.2 with
  | Except.ok _ => 0
  | Except.error _ => 1

/-! Helper lemmas about the embedded functions. -/

/-- `load_data` never contacts the Model Gateway. -/
theorem load_data_gatewayCalls (fs : String → Option String) (p : String) :
    (load_data fs p).1.gatewayCalls = [] := by
  simp only [load_data]
  split
  · split <;> simp [Trace.append]
  · simp [Trace.append]

/-- `load_data` never invokes the Sandbox. -/
theorem load_data_sandboxRuns (fs : String → Option String) (p : String) :
    (load_data fs p).1.sandboxRuns = [] := by
  simp only [load_data]
  split
  · split <;> simp [Trace.append]
  · simp [Trace.append]

/-- On an unsupported extension, `load_data` prints the diagnostic and
returns `None` without raising. -/
theorem load_data_unsupported (fs : String → Option String) (path : String)
    (h : lowerStr (splitextExt path) ≠ ".csv") :
    load_data fs path =
      (⟨["Loading data from " ++ path ++ "...",
         "Unsupported file type: " ++ lowerStr (splitextExt path)], [], []⟩,
       Except.ok none) := by
  simp [load_data, h, Trace.append]

/-- `train_model_with_llm` never raises: the `except` clause converts every
failure of its body into a printed diagnostic and a normal return. -/
theorem train_model_with_llm_ok (env : Env) (m f tg : String) :
    (train_model_with_llm env m f tg).2 = Except.ok () := by
  rcases h : train_body env m f tg with ⟨t, r⟩
  cases r with
  | ok u => simp [train_model_with_llm, h]
  | error e => simp [train_model_with_llm, h]

/-! Concrete oracles used by the witnesses and counterexamples. -/

/-- A demo file system: a well-formed 5-row, 3-column CSV under
`data.csv`, a 1-row, 2-column CSV under the upper-case name `data.CSV`
and under `small.csv`; every other path is missing. -/
def fsDemo : String → Option String := fun p =>
  if p = ("data.csv") then some ("a,b,c\n1,2,3\n4,5,6\n7,8,9\n10,11,12\n13,14,15")
  else if p = ("data.CSV") then some ("a,b\n1,2")
  else if p = ("small.csv") then some ("a,b\n1,2")
  else none

/-- Everything healthy: files present, model answering, code running. -/
def envDemo : Env :=
  ⟨fsDemo, fun _ => Except.ok ("print(1)"), fun _ => Except.ok ("1")⟩

/-- Every file is missing or unreadable. -/
def envMissing : Env :=
  ⟨fun _ => none, fun _ => Except.ok ("print(1)"), fun _ => Except.ok ("1")⟩

/-- The model endpoint is down: every Gateway call raises. -/
def envGatewayDown : Env :=
  ⟨fsDemo, fun _ => Except.error ("ConnectionError: model endpoint unreachable"),
   fun _ => Except.ok ("1")⟩

/-- The model returns text whose execution raises a runtime error. -/
def envRunFails : Env :=
  ⟨fsDemo, fun _ => Except.ok ("1/0"),
   fun _ => Except.error ("ZeroDivisionError: division by zero")⟩

/-! Claim theorems. -/

/-- C5: the Sandbox's execute operation is total: for every environment
and every input text, `get_python_repl` returns normally (it never lets an
exception escape), and whenever running the text raises an error, the
result it reports carries that error's message. -/
theorem C5_sandbox_total (env : Env) (text : String) :
    (get_python_repl env text).2 = Except.ok () ∧
    (∀ m, env.runCode text = Except.error m →
      m ∈ (get_python_repl env text).1.output) := by
  refine ⟨rfl, ?_⟩
  intro m hm
  simp [get_python_repl, pythonREPL_run, hm]

/-- C5 witness: a text whose execution raises `ZeroDivisionError` makes
`get_python_repl` return normally with the error's message reported. -/
theorem C5_sandbox_total_witness :
    envRunFails.runCode ("1/0") = Except.error ("ZeroDivisionError: division by zero") ∧
    (get_python_repl envRunFails ("1/0")).2 = Except.ok () ∧
    ("ZeroDivisionError: division by zero") ∈ (get_python_repl envRunFails ("1/0")).1.output :=
  ⟨rfl, (C5_sandbox_total envRunFails ("1/0")).1,
   (C5_sandbox_total envRunFails ("1/0")).2 ("ZeroDivisionError: division by zero") rfl⟩

/-- C6: for every supported CSV file (extension `.csv` after lowercasing,
readable, with a header line and data lines), the Loader returns a table
whose row count is the number of data lines and whose columns are the
header's fields, and `load_data` prints exactly these two numbers. -/
theorem C6_csv_shape_report (fs : String → Option String) (path content : String)
    (header : List Char) (dataLines : List (List Char))
    (hext : lowerStr (splitextExt path) = ".csv")
    (hfs : fs path = some content)
    (hlines : (splitChar ('\n') content.toList).filter (fun l => l ≠ []) =
      header :: dataLines) :
    ∃ df, (load_data fs path).2 = Except.ok (some df) ∧
      df.nrows = dataLines.length ∧
      df.columns.length = (splitChar (',') header).length ∧
      ("Loaded " ++ toString df.nrows ++ " rows and " ++
        toString df.columns.length ++ " columns.") ∈ (load_data fs path).1.output := by
  simp only [ne_eq] at hlines
  simp at hlines
  refine ⟨⟨(splitChar (',') header).map (fun g => String.mk g), dataLines.length⟩, ?_, rfl, ?_, ?_⟩
  · simp [load_data, read_csv, hext, hfs, hlines]
  · simp
  · simp [load_data, read_csv, hext, hfs, hlines, Trace.append]

/-- C6 witness: a CSV with header `a,b,c` and 5 data rows loads as a
5-row, 3-column table and is reported as "5 rows and 3 columns." -/
theorem C6_csv_shape_report_witness :
    lowerStr (splitextExt ("data.csv")) = ".csv" ∧
    fsDemo ("data.csv") = some ("a,b,c\n1,2,3\n4,5,6\n7,8,9\n10,11,12\n13,14,15") ∧
    (∃ df, (load_data fsDemo ("data.csv")).2 = Except.ok (some df) ∧
      df.nrows = 5 ∧ df.columns.length = 3) ∧
    ("Loaded 5 rows and 3 columns.") ∈ (load_data fsDemo ("data.csv")).1.output := by
  refine ⟨by decide, rfl, ?_, by decide⟩
  obtain ⟨df, h1, h2, h3, _⟩ :=
    C6_csv_shape_report fsDemo ("data.csv") ("a,b,c\n1,2,3\n4,5,6\n7,8,9\n10,11,12\n13,14,15")
      (("a,b,c").toList)
      ([("1,2,3").toList, ("4,5,6").toList, ("7,8,9").toList,
        ("10,11,12").toList, ("13,14,15").toList])
      (by decide) rfl (by decide)
  exact ⟨df, h1, h2, h3.trans (by decide)⟩

/-- C7 counterexample: the claim "every file path whose extension is not
`.csv` yields no dataset" fails at `data.CSV`: its extension is `.CSV`,
which is not the string `.csv`, yet the Loader lowercases before comparing
and returns a dataset. -/
theorem C7_counterexample :
    splitextExt ("data.CSV") ≠ (".csv") ∧
    (load_data fsDemo ("data.CSV")).2 = Except.ok (some ⟨["a", "b"], 1⟩) :=
  ⟨by decide, rfl⟩

/-- C7 amended: for every file path whose extension is not `.csv` after
lowercasing, the Loader returns no dataset (and does not raise) and prints
a diagnostic identifying the lowercased extension. -/
theorem C7_amended_unsupported_ext (fs : String → Option String) (path : String)
    (h : lowerStr (splitextExt path) ≠ ".csv") :
    (load_data fs path).2 = Except.ok none ∧
    ("Unsupported file type: " ++ lowerStr (splitextExt path)) ∈ (load_data fs path).1.output := by
  rw [load_data_unsupported fs path h]
  simp

/-- C7 witness: loading `data.json` yields no dataset and the diagnostic
naming `.json`. -/
theorem C7_amended_unsupported_ext_witness :
    lowerStr (splitextExt ("data.json")) ≠ ".csv" ∧
    (load_data fsDemo ("data.json")).2 = Except.ok none ∧
    ("Unsupported file type: .json") ∈ (load_data fsDemo ("data.json")).1.output := by
  refine ⟨by decide, (C7_amended_unsupported_ext fsDemo ("data.json") (by decide)).1, ?_⟩
  have h := (C7_amended_unsupported_ext fsDemo ("data.json") (by decide)).2
  simpa using h

/-- C3: whenever the Loader fails to produce a dataset for a `train-model`
or `generate-eda` request — it returned `None` (unsupported extension) or
raised (load error) — the dispatch makes no Model Gateway call at all. -/
theorem C3_no_gateway_on_loader_failure (env : Env) (m tg file : String) (plot : Option String)
    (h : (load_data env.fs file).2 = Except.ok none ∨
      ∃ e, (load_data env.fs file).2 = Except.error e) :
    (train_model_with_llm env m file tg).1.gatewayCalls = [] ∧
    (generate_eda_with_llm env file plot).1.gatewayCalls = [] := by
  have hg := load_data_gatewayCalls env.fs file
  rcases hl : load_data env.fs file with ⟨t, r⟩
  rw [hl] at hg h
  simp only at hg h
  rcases h with h | ⟨e, h⟩ <;> subst h <;>
    simp [train_model_with_llm, train_body, generate_eda_with_llm, hl, hg]

/-- C3 witness: with an unsupported extension (`data.json`), neither
dispatch contacts the Gateway. -/
theorem C3_no_gateway_on_loader_failure_witness :
    ((load_data envDemo.fs ("data.json")).2 = Except.ok none ∨
      ∃ e, (load_data envDemo.fs ("data.json")).2 = Except.error e) ∧
    (train_model_with_llm envDemo ("random_forest") ("data.json") ("y")).1.gatewayCalls = [] ∧
    (generate_eda_with_llm envDemo ("data.json") none).1.gatewayCalls = [] :=
  ⟨Or.inl rfl,
   C3_no_gateway_on_loader_failure envDemo ("random_forest") ("y") ("data.json") none
    (Or.inl rfl)⟩

/-- C4: a `train-model` request whose target column is absent from the
loaded dataset's columns makes no Gateway call and no Sandbox run, and the
diagnostic it prints names the missing target. -/
theorem C4_validation_before_gateway (env : Env) (m file tg : String) (df : DataFrame)
    (hload : (load_data env.fs file).2 = Except.ok (some df))
    (htg : tg ∉ df.columns) :
    (train_model_with_llm env m file tg).1.gatewayCalls = [] ∧
    (train_model_with_llm env m file tg).1.sandboxRuns = [] ∧
    ("Error during model training: Target column \x27" ++ tg ++ "\x27 not found in the dataset")
      ∈ (train_model_with_llm env m file tg).1.output := by
  have hg := load_data_gatewayCalls env.fs file
  have hs := load_data_sandboxRuns env.fs file
  rcases hl : load_data env.fs file with ⟨t, r⟩
  rw [hl] at hg hs hload
  simp only at hg hs hload
  subst hload
  refine ⟨?_, ?_, ?_⟩
  · simp [train_model_with_llm, train_body, hl, hg, htg]
  · simp [train_model_with_llm, train_body, hl, hs, htg]
  · simp [train_model_with_llm, train_body, hl, htg, Trace.append, String.append_assoc]
    exact Or.inr rfl

/-- C4 witness: training on `small.csv` (columns `a`, `b`) with target `y`
reports the target-not-found diagnostic and contacts neither the Gateway
nor the Sandbox. -/
theorem C4_validation_before_gateway_witness :
    (load_data envDemo.fs ("small.csv")).2 = Except.ok (some ⟨["a", "b"], 1⟩) ∧
    ("y") ∉ (DataFrame.mk (["a", "b"]) 1).columns ∧
    (train_model_with_llm envDemo ("random_forest") ("small.csv") ("y")).1.gatewayCalls = [] ∧
    (train_model_with_llm envDemo ("random_forest") ("small.csv") ("y")).1.sandboxRuns = [] ∧
    ("Error during model training: Target column \x27y\x27 not found in the dataset")
      ∈ (train_model_with_llm envDemo ("random_forest") ("small.csv") ("y")).1.output := by
  have h := C4_validation_before_gateway envDemo ("random_forest") ("small.csv") ("y")
    ⟨["a", "b"], 1⟩ rfl (by decide)
  exact ⟨rfl, by decide, h.1, h.2.1, by simpa using h.2.2⟩

/-- C8: in interactive mode, a first line equal to the exit keyword under
case-insensitive comparison terminates the loop with no Gateway call and a
normal return; any other line is dispatched to the Gateway as a one-shot
conversation, after which the loop continues on the remaining lines. -/
theorem C8_interactive_exit_and_dispatch (env : Env) (q : String) (rest : List String) :
    (lowerStr q = "exit" →
      (interactive_mode env (q :: rest)).1.gatewayCalls = [] ∧
      (interactive_mode env (q :: rest)).2 = Except.ok ()) ∧
    (∀ resp, lowerStr q ≠ "exit" → env.llm q = Except.ok resp →
      (interactive_mode env (q :: rest)).1.gatewayCalls =
        q :: (interactive_loop env rest).1.gatewayCalls ∧
      (interactive_mode env (q :: rest)).2 = (interactive_loop env rest).2) := by
  constructor
  · intro hq
    simp [interactive_mode, interactive_loop, hq]
  · intro resp hq hr
    simp [interactive_mode, interactive_loop, hq, chat_with_llm, hr]

/-- C8 witness: the first line `EXIT` terminates with no Gateway call;
a first line `hello` is dispatched and the loop continues. -/
theorem C8_interactive_exit_and_dispatch_witness :
    lowerStr ("EXIT") = "exit" ∧
    (interactive_mode envDemo (["EXIT", "hello"])).1.gatewayCalls = [] ∧
    (interactive_mode envDemo (["EXIT", "hello"])).2 = Except.ok () ∧
    lowerStr ("hello") ≠ "exit" ∧
    envDemo.llm ("hello") = Except.ok ("print(1)") ∧
    (interactive_mode envDemo (["hello", "exit"])).1.gatewayCalls =
      "hello" :: (interactive_loop envDemo (["exit"])).1.gatewayCalls := by
  refine ⟨by decide, ?_, ?_, by decide, rfl, ?_⟩
  · exact ((C8_interactive_exit_and_dispatch envDemo ("EXIT") (["hello"])).1 (by decide)).1
  · exact ((C8_interactive_exit_and_dispatch envDemo ("EXIT") (["hello"])).1 (by decide)).2
  · exact ((C8_interactive_exit_and_dispatch envDemo ("hello") (["exit"])).2
      ("print(1)") (by decide) rfl).1

/-- C9: a `suggest` dispatch with a task other than the two recognized
constants raises an `UnboundLocalError` that is not caught anywhere (the
process dies with exit status 1 and no Gateway call); each of the two
recognized constants sends exactly its fixed instruction to the Gateway. -/
theorem C9_suggest_unknown_fatal (env : Env) (task : String) :
    (task ≠ "preprocessing" → task ≠ "hyperparameter_tuning" →
      (main env (Command.suggest task)).2 =
        Except.error
          ("UnboundLocalError: local variable \x27query\x27 referenced before assignment") ∧
      exitStatus (main env (Command.suggest task)) = 1 ∧
      (main env (Command.suggest task)).1.gatewayCalls = []) ∧
    (main env (Command.suggest ("preprocessing"))).1.gatewayCalls =
      ["Suggest the best preprocessing steps for a CSV dataset."] ∧
    (main env (Command.suggest ("hyperparameter_tuning"))).1.gatewayCalls =
      ["Suggest hyperparameter tuning steps for a llama 3.2 model."] := by
  refine ⟨?_, ?_, ?_⟩
  · intro h1 h2
    simp [main, suggest_task, h1, h2, exitStatus]
  · cases hc : env.llm ("Suggest the best preprocessing steps for a CSV dataset.") <;>
      simp [main, suggest_task, chat_with_llm, hc]
  · cases hc : env.llm ("Suggest hyperparameter tuning steps for a llama 3.2 model.") <;>
      simp [main, suggest_task, chat_with_llm, hc]

/-- C9 witness: the unrecognized task `cleanup` dies with an uncaught
`UnboundLocalError` and no Gateway call; the two recognized tasks each
send their fixed instruction. -/
theorem C9_suggest_unknown_fatal_witness :
    ("cleanup" : String) ≠ "preprocessing" ∧ ("cleanup" : String) ≠ "hyperparameter_tuning" ∧
    exitStatus (main envDemo (Command.suggest ("cleanup"))) = 1 ∧
    (main envDemo (Command.suggest ("cleanup"))).1.gatewayCalls = [] ∧
    (main envDemo (Command.suggest ("preprocessing"))).1.gatewayCalls =
      ["Suggest the best preprocessing steps for a CSV dataset."] := by
  have h := C9_suggest_unknown_fatal envDemo ("cleanup")
  exact ⟨by decide, by decide, (h.1 (by decide) (by decide)).2.1,
    (h.1 (by decide) (by decide)).2.2, h.2.1⟩

/-- C10: a `generate-eda` dispatch whose optional plot type is absent
interpolates Python's `None` verbatim: whenever the Loader produced a
dataset, the single instruction sent to the Gateway ends in the literal
text "Include None plots if applicable." instead of dropping the plot
clause. -/
theorem C10_eda_none_plot_literal (env : Env) (file : String) (df : DataFrame)
    (hload : (load_data env.fs file).2 = Except.ok (some df)) :
    ∃ a, (generate_eda_with_llm env file none).1.gatewayCalls =
      [a ++ "Include None plots if applicable."] := by
  have hg := load_data_gatewayCalls env.fs file
  rcases hl : load_data env.fs file with ⟨t, r⟩
  rw [hl] at hg hload
  simp only at hg hload
  subst hload
  refine ⟨"Generate an EDA report for the " ++ reprDF df ++ " of dataset. ", ?_⟩
  have hq : edaQuery df none =
      ("Generate an EDA report for the " ++ reprDF df ++ " of dataset. ") ++
        "Include None plots if applicable." := by
    simp only [edaQuery, pyStr, String.append_assoc]
    exact congrArg (fun y => "Generate an EDA report for the " ++ y)
      (congrArg (fun y => reprDF df ++ y) rfl)
  rw [← hq]
  cases hc : env.llm (edaQuery df none) <;>
    simp [generate_eda_with_llm, hl, chat_with_llm, hc, hg, Trace.append, get_python_repl]

/-- C10 witness: for `small.csv` with `--plot` omitted, the Gateway query
ends in the literal clause about `None` plots. -/
theorem C10_eda_none_plot_literal_witness :
    (load_data envDemo.fs ("small.csv")).2 = Except.ok (some ⟨["a", "b"], 1⟩) ∧
    ∃ a, (generate_eda_with_llm envDemo ("small.csv") none).1.gatewayCalls =
      [a ++ "Include None plots if applicable."] :=
  ⟨rfl, C10_eda_none_plot_literal envDemo ("small.csv") ⟨["a", "b"], 1⟩ rfl⟩

/-- C1 counterexample: a Gateway failure during a `generate-eda` dispatch
is NOT caught at the Session Loop boundary: with the model endpoint down,
`eda --file data.csv` ends in an uncaught exception (exit status 1), so
the generate-eda path is not covered by the containment guarantee. -/
theorem C1_counterexample :
    (main envGatewayDown (Command.eda ("data.csv") none)).2 =
      Except.error ("ConnectionError: model endpoint unreachable") ∧
    exitStatus (main envGatewayDown (Command.eda ("data.csv") none)) = 1 :=
  ⟨rfl, rfl⟩

/-- C1 amended: failures during a `train-model` dispatch are caught at the
Session Loop boundary and converted to a diagnostic line, and the process
returns normally; the `generate-eda` dispatch contains only the Loader's
unsupported-extension outcome (reported as a diagnostic with a normal
return) — its other failures propagate uncaught, as the counterexample
shows. -/
theorem C1_amended_containment (env : Env) (m f tg file : String) (plot : Option String)
    (hext : lowerStr (splitextExt file) ≠ ".csv") :
    (main env (Command.train m f tg)).2 = Except.ok () ∧
    (∀ t e, train_body env m f tg = (t, Except.error e) →
      ("Error during model training: " ++ e) ∈ (main env (Command.train m f tg)).1.output) ∧
    (main env (Command.eda file plot)).2 = Except.ok () ∧
    ("Failed to load data for EDA") ∈ (main env (Command.eda file plot)).1.output := by
  refine ⟨?_, ?_, ?_, ?_⟩
  · simp only [main]
    exact train_model_with_llm_ok env m f tg
  · intro t e h
    simp [main, train_model_with_llm, h, Trace.append]
  · simp [main, generate_eda_with_llm, load_data_unsupported env.fs file hext]
  · simp [main, generate_eda_with_llm, load_data_unsupported env.fs file hext, Trace.append]

/-- C1 witness: with the Gateway down, `train` still returns normally and
prints the diagnostic carrying the Gateway error; `eda` on an unsupported
extension returns normally with its diagnostic. -/
theorem C1_amended_containment_witness :
    lowerStr (splitextExt ("data.json")) ≠ ".csv" ∧
    (main envGatewayDown (Command.train ("random_forest") ("data.csv") ("a"))).2 =
      Except.ok () ∧
    ("Error during model training: ConnectionError: model endpoint unreachable")
      ∈ (main envGatewayDown (Command.train ("random_forest") ("data.csv") ("a"))).1.output ∧
    (main envGatewayDown (Command.eda ("data.json") none)).2 = Except.ok () ∧
    ("Failed to load data for EDA")
      ∈ (main envGatewayDown (Command.eda ("data.json") none)).1.output := by
  have h := C1_amended_containment envGatewayDown ("random_forest") ("data.csv") ("a")
    ("data.json") none (by decide)
  exact ⟨by decide, h.1,
    h.2.1 (train_body envGatewayDown ("random_forest") ("data.csv") ("a")).1
      ("ConnectionError: model endpoint unreachable") rfl,
    h.2.2.1, h.2.2.2⟩

/-- C2 counterexample: `load --file data.csv` with the file missing is not
reported as text with exit 0: `read_csv` raises `FileNotFoundError`, which
nothing catches, so the process exits with status 1. -/
theorem C2_counterexample :
    (main envMissing (Command.load ("data.csv"))).2 =
      Except.error ("FileNotFoundError: data.csv") ∧
    exitStatus (main envMissing (Command.load ("data.csv"))) = 1 :=
  ⟨rfl, rfl⟩

/-- C2 amended: a recognized subcommand exits 0 only when no exception
escapes its dispatch: `train` always exits 0; a `load` of a file with an
unsupported extension is reported as text and exits 0; but a `load` of a
missing or unreadable `.csv` file raises an uncaught `FileNotFoundError`
and exits 1. -/
theorem C2_amended_exit_status (env : Env) (m f tg file file2 : String)
    (h1 : lowerStr (splitextExt file) ≠ ".csv")
    (h2 : lowerStr (splitextExt file2) = ".csv")
    (h3 : env.fs file2 = none) :
    exitStatus (main env (Command.train m f tg)) = 0 ∧
    (exitStatus (main env (Command.load file)) = 0 ∧
      ("Unsupported file type: " ++ lowerStr (splitextExt file))
        ∈ (main env (Command.load file)).1.output) ∧
    exitStatus (main env (Command.load file2)) = 1 := by
  refine ⟨?_, ⟨?_, ?_⟩, ?_⟩
  · have h := train_model_with_llm_ok env m f tg
    simp [main, exitStatus, h]
  · simp [main, load_data_unsupported env.fs file h1, exitStatus]
  · simp [main, load_data_unsupported env.fs file h1]
  · simp [main, load_data, read_csv, h2, h3, exitStatus]

/-- C2 witness: on a file system with every file missing, `train` exits 0,
`load data.json` exits 0 with the unsupported-type text, and
`load data.csv` exits 1. -/
theorem C2_amended_exit_status_witness :
    lowerStr (splitextExt ("data.json")) ≠ ".csv" ∧
    lowerStr (splitextExt ("data.csv")) = ".csv" ∧
    envMissing.fs ("data.csv") = none ∧
    exitStatus (main envMissing (Command.train ("rf") ("x.csv") ("y"))) = 0 ∧
    exitStatus (main envMissing (Command.load ("data.json"))) = 0 ∧
    exitStatus (main envMissing (Command.load ("data.csv"))) = 1 := by
  have h := C2_amended_exit_status envMissing ("rf") ("x.csv") ("y") ("data.json")
    ("data.csv") (by decide) (by decide) rfl
  exact ⟨by decide, by decide, rfl, h.1, h.2.1.1, h.2.2⟩

end DSCoder
